import Mathlib

/-!
Shallow embedding of the browser-automation engine of the `jarvis` repository
(backend/app/browser_automation.py, backend/app/lenso_automation.py and
backend/app/api/routes/automation.py).

The browser and the target site's DOM are external, non-deterministic
collaborators.  They are modelled as explicit environment records: each field
records the answer the browser would give to one of the queries the code
performs (does an element appear, which attribute values come back, does a
call raise).  The Python functions are then translated branch by branch into
total Lean functions over these environments.  Exceptions that the Python
code swallows internally are modelled by the corresponding boolean fields;
an exception that would escape a function is returned explicitly.
-/

namespace Jarvis

/-- Embeds Python's substring test `pat in hay` on the character list level:
`hasPrefixL hay pat` holds when `pat` is an initial segment of `hay`. -/
def hasPrefixL : List Char → List Char → Bool
  | _, [] => true
  | [], _ :: _ => false
  | a :: as, b :: bs => (a = b) && hasPrefixL as bs

/-- Embeds Python's substring test `pat in hay`: some tail of `hay` starts
with `pat`. -/
def containsL (hay pat : List Char) : Bool :=
  match hay with
  | [] => pat.isEmpty
  | _ :: rest => hasPrefixL hay pat || containsL rest pat

/-- String-level substring test, the meaning of Python's `pat in hay`. -/
def strContains (hay pat : String) : Bool :=
  containsL hay.toList pat.toList

/-- Embeds the proxy-URL filter of `collect_result_images`
(lenso_automation.py line 202): Python keeps `url` when
`url and "api" in url and "lenso.ai" in url`, i.e. the string is truthy
(non-empty) and contains both markers as substrings. -/
def proxyFilter (url : String) : Bool :=
  (url ≠ "") && strContains url "api" && strContains url "lenso.ai"

/-- Embeds `BrowserAutomation.get_all_element_attributes`
(browser_automation.py lines 225-246): for each matched element the raw
attribute value is a string or absent (`none`); Python appends it only when
truthy, so `none` and the empty string are dropped. -/
def get_all_element_attributes (raw : List (Option String)) : List String :=
  raw.filterMap fun v =>
    match v with
    | none => none
    | some s => if s = "" then none else some s

/-- Environment seen by `collect_result_images`: whether the call raises,
whether the results container appears within its timeout, and the raw `src`
attribute values of the images matched by the specific and by the loose
selector. -/
structure CollectEnv where
  raises : Bool
  resultsContainer : Bool
  specificSrcs : List (Option String)
  looseSrcs : List (Option String)
deriving Repr, DecidableEq

/-- Embeds `LensoAutomation.collect_result_images`
(lenso_automation.py lines 171-219): missing container or an exception
yields `[]`; otherwise the specific selector's srcs are used, falling back
to the loose selector when they are empty, and the result is filtered by
`proxyFilter`. -/
def collect_result_images (c : CollectEnv) : List String :=
  if c.raises then []
  else if ¬ c.resultsContainer then []
  else
    let image_urls := get_all_element_attributes c.specificSrcs
    let image_urls :=
      if image_urls.isEmpty then get_all_element_attributes c.looseSrcs
      else image_urls
    image_urls.filter proxyFilter

/-- The file named by `image_path`, as the two validation checks of
`upload_image_to_lenso` see it: whether `Path(image_path).exists()` and its
size in bytes.  The Python size check `st_size / (1024*1024) > 10` divides
by a power of two, which is exact in binary floating point, so it is the
integer comparison `sizeBytes > 10 * 1024 * 1024`. -/
structure FileDesc where
  fileExists : Bool
  sizeBytes : Nat
deriving Repr, DecidableEq

/-- The Python exceptions raised by the validation block of
`upload_image_to_lenso` (lenso_automation.py lines 42-47). -/
inductive PyError where
  | fileNotFound
  | fileTooLarge
deriving Repr, DecidableEq

/-- Embeds the validation block of `upload_image_to_lenso`
(lenso_automation.py lines 41-47): `FileNotFoundError` when the path does
not exist, `ValueError` when the size exceeds 10MB. -/
def upload_validate (fs : FileDesc) : Option PyError :=
  if ¬ fs.fileExists then some .fileNotFound
  else if fs.sizeBytes > 10 * 1024 * 1024 then some .fileTooLarge
  else none

/-- The browser-visible steps `upload_image_to_lenso` can perform, in the
order the code performs them; used to state what happened before a given
point (in particular that validation failures perform no navigation). -/
inductive UploadAction where
  | navigate
  | cookieConsent
  | waitUploadArea
  | setInputFiles
  | clickDragArea
  | privacyConsent
  | screenshot
deriving Repr, DecidableEq

/-- The value `upload_image_to_lenso` returns to its caller: the success
dictionary of lines 109-113, or the bare empty list `[]` that every failure
path returns (lines 60, 76 and 118). -/
inductive UploadOutcome where
  | result (image_urls : List String) (search_url : String) (count : Nat)
  | emptyList
deriving Repr, DecidableEq

/-- The image URLs carried by an upload outcome; the bare `[]` of the
failure paths carries none. -/
def UploadOutcome.imageUrls : UploadOutcome → List String
  | .result urls _ _ => urls
  | .emptyList => []

/-- The count carried by an upload outcome; the bare `[]` of the failure
paths has length `0`. -/
def UploadOutcome.countVal : UploadOutcome → Nat
  | .result _ _ c => c
  | .emptyList => 0

/-- Environment seen by `upload_image_to_lenso` after validation: whether
navigation raises, whether the upload widget appears, whether each of the
two upload strategies succeeds, whether the consent modal appears, the
environment of the result collection, and the page URL read at the end. -/
structure UploadEnv where
  navRaises : Bool
  uploadAreaAppears : Bool
  directInputWorks : Bool
  fallbackInputWorks : Bool
  consentModalAppears : Bool
  collect : CollectEnv
  pageUrl : String
deriving Repr, DecidableEq

/-- Embeds `LensoAutomation.upload_image_to_lenso`
(lenso_automation.py lines 27-118).  Returns the outcome, the exception
escaping to the caller, and the trace of browser steps performed.  The whole
body sits in `try ... except Exception` (line 115), so the validation
errors raised at lines 43 and 47 are caught there, an error screenshot is
taken, and the bare `[]` is returned: no exception ever escapes. -/
def upload_image_to_lenso (fs : FileDesc) (env : UploadEnv) :
    UploadOutcome × Option PyError × List UploadAction :=
  match upload_validate fs with
  | some _ => (.emptyList, none, [.screenshot])
  | none =>
    if env.navRaises then (.emptyList, none, [.navigate, .screenshot])
    else if ¬ env.uploadAreaAppears then
      (.emptyList, none, [.navigate, .cookieConsent, .waitUploadArea])
    else if ¬ (env.directInputWorks || env.fallbackInputWorks) then
      (.emptyList, none,
        [.navigate, .cookieConsent, .waitUploadArea, .setInputFiles,
         .clickDragArea, .setInputFiles])
    else
      let steps :=
        if env.directInputWorks then
          [UploadAction.navigate, .cookieConsent, .waitUploadArea,
           .setInputFiles]
        else
          [UploadAction.navigate, .cookieConsent, .waitUploadArea,
           .setInputFiles, .clickDragArea, .setInputFiles]
      let steps :=
        if env.consentModalAppears then steps ++ [UploadAction.privacyConsent]
        else steps
      let image_urls := collect_result_images env.collect
      (.result image_urls env.pageUrl image_urls.length, none,
        steps ++ [UploadAction.screenshot])

/-! Result extraction engine (lenso_automation.py lines 260-503). -/

/-- The three fields `_extract_result_info` reads from the first result
entry of an opened modal. -/
structure ResultInfo where
  domain : String
  title : String
  image_url : String
deriving Repr, DecidableEq

/-- A full extracted record: the `ResultInfo` fields plus the destination
`url` added by `_extract_url_from_modal` after the pop-up navigation. -/
structure UrlRecord where
  domain : String
  title : String
  image_url : String
  url : String
deriving Repr, DecidableEq

/-- The first result entry inside an opened modal, as the per-card routine
queries it.  `thumbSrc` is `none` when the `.image-thumbnail img` element is
absent, `some a` when it is present with `src` attribute `a` (itself `none`
when the attribute is missing).  `domainText` and `titleText` are `none`
when the `p.domain-name` / `p.title` element is absent; an element node's
text content is always a string.  `globeButtonPresent` says whether the
first action button exists, `newTabUrl` is the URL of the tab the click
opens (`none` when no new tab appears within the wait window), and the two
`raises` fields say whether the corresponding helper raises. -/
structure ResultItemEnv where
  thumbSrc : Option (Option String)
  domainText : Option String
  titleText : Option String
  globeButtonPresent : Bool
  newTabUrl : Option String
  infoRaises : Bool
  clickRaises : Bool
deriving Repr, DecidableEq

/-- Embeds `LensoAutomation._extract_result_info`
(lenso_automation.py lines 429-460): returns `None` when the thumbnail
element is absent, when its `src` attribute is missing, or when the value
is falsy; the domain and title fall back to the literal `"Unknown"` when
their element is absent. -/
def extract_result_info (it : ResultItemEnv) : Option ResultInfo :=
  if it.infoRaises then none
  else
    match it.thumbSrc with
    | none => none
    | some none => none
    | some (some src) =>
      if src = "" then none
      else
        some
          { domain := it.domainText.getD "Unknown"
            title := it.titleText.getD "Unknown"
            image_url := src }

/-- Embeds `LensoAutomation._click_globe_button`
(lenso_automation.py lines 462-503): `None` when the button is absent, when
the call raises, or when no new tab appears after the click; otherwise the
new tab's URL after it finishes loading. -/
def click_globe_button (it : ResultItemEnv) : Option String :=
  if it.clickRaises then none
  else if ¬ it.globeButtonPresent then none
  else it.newTabUrl

/-- The opened modal as `_extract_url_from_modal` queries it: whether the
call raises, whether the `div.search-results-list` element exists, the
`class` attribute of that list before and after the unlock click, and the
first `div.result` entry (`none` when absent). -/
structure ModalEnv where
  raises : Bool
  searchResultsListPresent : Bool
  listClasses : Option String
  listClassesAfterClick : Option String
  resultItem : Option ResultItemEnv
deriving Repr, DecidableEq

/-- Embeds `LensoAutomation._unlock_search_results`
(lenso_automation.py lines 408-427): clicks the list exactly when its class
attribute is truthy and contains `"locked"`; returns whether the unlock
click was issued (the routine only logs, it never changes the output). -/
def unlock_search_results (m : ModalEnv) : Bool :=
  match m.listClasses with
  | none => false
  | some cls => (cls ≠ "") && strContains cls "locked"

/-- Embeds `LensoAutomation._extract_url_from_modal`
(lenso_automation.py lines 373-406): `None` when the results list or the
first result entry is absent, when the info extraction fails, or when the
globe-button click yields no truthy URL; otherwise the info fields with
`url` set to the new tab's URL. -/
def extract_url_from_modal (m : ModalEnv) : Option UrlRecord :=
  if m.raises then none
  else if ¬ m.searchResultsListPresent then none
  else
    match m.resultItem with
    | none => none
    | some it =>
      match extract_result_info it with
      | none => none
      | some info =>
        match click_globe_button it with
        | none => none
        | some final_url =>
          if final_url = "" then none
          else
            some
              { domain := info.domain
                title := info.title
                image_url := info.image_url
                url := final_url }

/-- One result card as `_process_result_card` sees it: whether scrolling,
clicking or closing the card raises, and the modal its click opens. -/
structure CardEnv where
  raises : Bool
  modal : ModalEnv
deriving Repr, DecidableEq

/-- Embeds `LensoAutomation._process_result_card`
(lenso_automation.py lines 346-371): any exception while handling the card
is caught and turned into `None`; otherwise the modal extraction's result
is returned. -/
def process_result_card (c : CardEnv) : Option UrlRecord :=
  if c.raises then none
  else extract_url_from_modal c.modal

/-- Embeds the accumulation loop of `extract_urls_from_results_page`
(lenso_automation.py lines 292-296): each card is processed in order and
only truthy (non-`None`) per-card results are appended. -/
def processCards (cards : List CardEnv) : List UrlRecord :=
  cards.filterMap process_result_card

/-- The results page as `extract_urls_from_results_page` sees it:
whether navigation or card enumeration raises, and the result cards of each
grid column in page order. -/
structure ExtractEnv where
  navRaises : Bool
  cardsRaise : Bool
  gridCols : List (List CardEnv)
deriving Repr, DecidableEq

/-- Embeds `LensoAutomation._get_result_cards`
(lenso_automation.py lines 315-344): the cards of all grid columns,
flattened in column order; an exception yields `[]` (the zero-column and
zero-card checks also return `[]`, which flattening already gives). -/
def get_result_cards (env : ExtractEnv) : List CardEnv :=
  if env.cardsRaise then []
  else env.gridCols.flatten

/-- Embeds the truncation of line 289:
`result_cards[:min(max_urls, len(result_cards))]`. -/
def cardsToProcess (cards : List CardEnv) (max_urls : Nat) : List CardEnv :=
  cards.take (min max_urls cards.length)

/-- The mapping `extract_urls_from_results_page` returns.  `results_url` is
`none` when the key is omitted from the returned dictionary (the two
failure returns at lines 286 and 313) and `some r` when present. -/
structure ExtractionResult where
  urls : List UrlRecord
  count : Nat
  results_url : Option String
deriving Repr, DecidableEq

/-- Embeds `LensoAutomation.extract_urls_from_results_page`
(lenso_automation.py lines 260-313): an exception anywhere yields
`urls = [], count = 0` with no `results_url` key (line 313); no result
cards likewise (line 286); otherwise at most `max_urls` cards are processed
in order and the successfully extracted records are returned together with
their number and the input `results_url`. -/
def extract_urls_from_results_page (env : ExtractEnv) (results_url : String)
    (max_urls : Nat) : ExtractionResult :=
  if env.navRaises then { urls := [], count := 0, results_url := none }
  else
    let result_cards := get_result_cards env
    if result_cards.isEmpty then { urls := [], count := 0, results_url := none }
    else
      let cards := cardsToProcess result_cards max_urls
      let extracted_urls := processCards cards
      { urls := extracted_urls
        count := extracted_urls.length
        results_url := some results_url }

/-! Browser session manager (browser_automation.py lines 14-74). -/

/-- The three handle fields of a `BrowserAutomation` instance: `true` when
the field holds a live object, `false` when it is `None`.  `__init__`
(lines 27-29) sets all three to `None`; `start()` (lines 40-62) assigns
`playwright` and `context` but never `browser`. -/
structure Handles where
  playwright : Bool
  browser : Bool
  context : Bool
deriving Repr, DecidableEq

/-- The release calls `close()` can issue on the underlying library. -/
inductive ReleaseAction where
  | closeContext
  | closeBrowser
  | stopDriver
deriving Repr, DecidableEq

/-- Position of a release call in the fixed order `close()` uses. -/
def ReleaseAction.rank : ReleaseAction → Nat
  | .closeContext => 0
  | .closeBrowser => 1
  | .stopDriver => 2

/-- Embeds `BrowserAutomation.start` (browser_automation.py lines 40-62) at
the handle level: it sets `playwright` and `context`; `browser` is never
assigned anywhere in the class and stays `None`. -/
def BrowserAutomation.start (h : Handles) : Handles :=
  { h with playwright := true, context := true }

/-- Embeds `BrowserAutomation.close` (browser_automation.py lines 66-74):
each handle is closed only if it is set, in the order context, browser,
driver; the fields are not reassigned, so the handle state is returned
unchanged. -/
def BrowserAutomation.close (h : Handles) : List ReleaseAction × Handles :=
  ((if h.context then [ReleaseAction.closeContext] else []) ++
   (if h.browser then [ReleaseAction.closeBrowser] else []) ++
   (if h.playwright then [ReleaseAction.stopDriver] else []), h)

/-! Session registry (api/routes/automation.py lines 66 and 309-346). -/

/-- The HTTP-level outcome of the `close_browser_session` route handler:
success (`status: closed`), a 404 for an unknown id, or a 500 when the
underlying `close()` raises. -/
inductive CloseSessionOutcome where
  | closed
  | notFound
  | serverError
deriving Repr, DecidableEq

/-- Embeds the `close_browser_session` route handler
(api/routes/automation.py lines 309-346) over the `active_sessions`
registry, modelled as the set of registered ids; `closeRaises id` says
whether `automation.close()` raises for the session stored under `id`.
Returns the HTTP outcome, the registry after the call, and the list of ids
whose underlying session's `close()` was invoked.  An unknown id raises the
404 before any handle is touched; when `close()` raises, the generic
handler re-raises a 500 and the `del` at line 332 is never reached, so the
entry stays registered. -/
def close_browser_session (closeRaises : String → Bool)
    (registry : Finset String) (id : String) :
    CloseSessionOutcome × Finset String × List String :=
  if id ∈ registry then
    if closeRaises id then (.serverError, registry, [id])
    else (.closed, registry.erase id, [id])
  else (.notFound, registry, [])

/-! Concrete sample environments, used to evaluate the embedded functions on
closed inputs. -/

/-- A readable 2KB file, valid for upload. -/
def sampleFile : FileDesc := { fileExists := true, sizeBytes := 2048 }

/-- A collection environment in which the container appears and the specific
selector yields one proxy URL, one foreign URL and one missing attribute. -/
def sampleCollect : CollectEnv :=
  { raises := false
    resultsContainer := true
    specificSrcs :=
      [some "https://api.lenso.ai/proxy/1.jpg", some "https://other.example/x",
       none]
    looseSrcs := [] }

/-- An upload environment in which everything succeeds on the premium path. -/
def sampleUploadEnv : UploadEnv :=
  { navRaises := false
    uploadAreaAppears := true
    directInputWorks := true
    fallbackInputWorks := false
    consentModalAppears := false
    collect := sampleCollect
    pageUrl := "https://lenso.ai/en/results/abc" }

/-- A first result entry whose globe-button click opens no new tab. -/
def sampleItemNoTab : ResultItemEnv :=
  { thumbSrc := some (some "https://api.lenso.ai/thumb.jpg")
    domainText := some "example.com"
    titleText := some "A title"
    globeButtonPresent := true
    newTabUrl := none
    infoRaises := false
    clickRaises := false }

/-- A modal whose only candidate record has no destination tab. -/
def sampleModalNoTab : ModalEnv :=
  { raises := false
    searchResultsListPresent := true
    listClasses := some "search-results-list"
    listClassesAfterClick := none
    resultItem := some sampleItemNoTab }

/-- A first result entry whose extraction fully succeeds. -/
def sampleGoodItem : ResultItemEnv :=
  { thumbSrc := some (some "https://api.lenso.ai/thumb.jpg")
    domainText := some "example.com"
    titleText := some "A title"
    globeButtonPresent := true
    newTabUrl := some "https://example.com/page"
    infoRaises := false
    clickRaises := false }

/-- A modal whose extraction fully succeeds. -/
def sampleGoodModal : ModalEnv :=
  { raises := false
    searchResultsListPresent := true
    listClasses := some "search-results-list"
    listClassesAfterClick := none
    resultItem := some sampleGoodItem }

/-- A result card whose processing fully succeeds. -/
def sampleGoodCard : CardEnv := { raises := false, modal := sampleGoodModal }

/-- A result card whose processing raises. -/
def sampleFailCard : CardEnv := { raises := true, modal := sampleGoodModal }

/-- A first result entry whose thumbnail element carries no src attribute. -/
def sampleItemNoSrc : ResultItemEnv :=
  { thumbSrc := some none
    domainText := some "example.com"
    titleText := some "A title"
    globeButtonPresent := true
    newTabUrl := some "https://example.com/page"
    infoRaises := false
    clickRaises := false }

/-- A results page on which navigation raises. -/
def sampleDegradedEnv : ExtractEnv :=
  { navRaises := true, cardsRaise := false, gridCols := [] }

/-- A results page with two grid columns holding one good and one failing
card. -/
def sampleExtractEnv : ExtractEnv :=
  { navRaises := false
    cardsRaise := false
    gridCols := [[sampleGoodCard], [sampleFailCard]] }

/-! Helper lemmas shared by the claim theorems. -/

/-- Every URL `collect_result_images` returns passes the proxy filter,
because the returned list is a `proxyFilter`-filtering of the collected
attribute values (or empty on the degraded paths). -/
theorem collect_all_proxy (c : CollectEnv) :
    (collect_result_images c).all proxyFilter = true := by
  have hfil : ∀ l : List String, (l.filter proxyFilter).all proxyFilter = true := by
    intro l
    apply List.all_eq_true.mpr
    intro x hx
    exact (List.mem_filter.mp hx).2
  unfold collect_result_images
  split_ifs with h1 h2
  · rfl
  · exact hfil _
  · rfl

/-- `upload_image_to_lenso` either returns the bare empty list of the
failure paths, or the success dictionary built from
`collect_result_images`. -/
theorem upload_outcome_cases (fs : FileDesc) (env : UploadEnv) :
    (upload_image_to_lenso fs env).1 = .emptyList ∨
    (upload_image_to_lenso fs env).1 =
      .result (collect_result_images env.collect) env.pageUrl
        (collect_result_images env.collect).length := by
  unfold upload_image_to_lenso
  cases hval : upload_validate fs with
  | some e => exact Or.inl rfl
  | none =>
    by_cases h1 : env.navRaises
    · simp [h1]
    · by_cases h2 : env.uploadAreaAppears
      · by_cases h3 : env.directInputWorks || env.fallbackInputWorks
        · simp [h1, h2, h3]
        · simp [h1, h2, h3]
      · simp [h1, h2]

/-- C1: for every valid image file (existing, size at most 10MB) and every
browser environment, `upload_image_to_lenso` returns an outcome whose count
equals the length of its image-URL sequence and all of whose URLs pass the
site proxy filter; the bare empty list returned on failure paths carries
zero URLs and count zero, so a non-empty URL list with a URL failing the
filter is never returned. -/
theorem c1_upload_count_and_filter (fs : FileDesc) (env : UploadEnv)
    (hex : fs.fileExists = true) (hsz : fs.sizeBytes ≤ 10 * 1024 * 1024) :
    (upload_image_to_lenso fs env).1.countVal
        = (upload_image_to_lenso fs env).1.imageUrls.length ∧
    (upload_image_to_lenso fs env).1.imageUrls.all proxyFilter = true := by
  rcases upload_outcome_cases fs env with h | h <;> rw [h]
  · exact ⟨rfl, rfl⟩
  · exact ⟨rfl, collect_all_proxy env.collect⟩

/-- C1 witness: the theorem instantiated at the sample valid file and the
fully succeeding sample environment. -/
theorem c1_upload_witness :
    (upload_image_to_lenso sampleFile sampleUploadEnv).1.countVal
        = (upload_image_to_lenso sampleFile sampleUploadEnv).1.imageUrls.length ∧
    (upload_image_to_lenso sampleFile sampleUploadEnv).1.imageUrls.all
        proxyFilter = true :=
  c1_upload_count_and_filter sampleFile sampleUploadEnv rfl (by decide)

/-- C2: the claim says the validation errors of `upload_image_to_lenso`
(missing file, file over 10MB) propagate to the caller.  The code raises
them inside the function-wide `try`, so the blanket `except Exception` at
lenso_automation.py line 115 catches them, takes an error screenshot and
returns the bare `[]`: no exception escapes (second component `none`), and
no navigation is performed (the trace holds only the error screenshot).
Evaluated here at a missing file and at an 11MB file. -/
theorem c2_validation_error_swallowed :
    upload_image_to_lenso { fileExists := false, sizeBytes := 0 }
        sampleUploadEnv = (.emptyList, none, [.screenshot]) ∧
    upload_validate { fileExists := true, sizeBytes := 11 * 1024 * 1024 }
        = some .fileTooLarge ∧
    upload_image_to_lenso { fileExists := true, sizeBytes := 11 * 1024 * 1024 }
        sampleUploadEnv = (.emptyList, none, [.screenshot]) := by
  refine ⟨rfl, by decide, rfl⟩

/-- C6 counterexample: `close` releases the handles in the order context,
browser, driver — not browser, context, driver as claimed — and a second
`close` on the state left by closing a started instance still issues
release calls (the handle fields are never cleared), so the second call is
not a code-level no-op. -/
theorem c6_close_order_cex :
    (BrowserAutomation.close
        { playwright := true, browser := true, context := true }).1
      = [ReleaseAction.closeContext, ReleaseAction.closeBrowser,
         ReleaseAction.stopDriver] ∧
    (BrowserAutomation.close
        { playwright := true, browser := true, context := true }).1
      ≠ [ReleaseAction.closeBrowser, ReleaseAction.closeContext,
         ReleaseAction.stopDriver] ∧
    (BrowserAutomation.close
        (BrowserAutomation.close
          (BrowserAutomation.start
            { playwright := false, browser := false, context := false })).2).1
      ≠ [] := by
  decide

/-- C6 amended: `close` performs no release calls when no handle was ever
acquired, leaves the handle state unchanged, therefore re-issues exactly
the same release calls when called a second time, and issues the calls it
does perform in the order context, browser, driver. -/
theorem c6_close_order_and_guards (h : Handles) :
    (BrowserAutomation.close
        { playwright := false, browser := false, context := false }).1 = [] ∧
    (BrowserAutomation.close h).2 = h ∧
    (BrowserAutomation.close (BrowserAutomation.close h).2).1
        = (BrowserAutomation.close h).1 ∧
    ((BrowserAutomation.close h).1).Pairwise
        (fun a b => a.rank < b.rank) := by
  rcases h with ⟨p, b, c⟩
  cases p <;> cases b <;> cases c <;> decide

/-- C7: closing a registered session whose underlying close succeeds
returns success, removes the entry and touches exactly that session's
handles; the second close of the same id returns the 404, leaves the
registry unchanged and touches no handles; and closing any unregistered id
is always the 404, never a no-op. -/
theorem c7_close_session_twice (closeRaises : String → Bool)
    (registry : Finset String) (id : String)
    (hmem : id ∈ registry) (hok : closeRaises id = false) :
    close_browser_session closeRaises registry id
        = (.closed, registry.erase id, [id]) ∧
    close_browser_session closeRaises (registry.erase id) id
        = (.notFound, registry.erase id, []) ∧
    ∀ j, j ∉ registry →
        close_browser_session closeRaises registry j
          = (.notFound, registry, []) := by
  refine ⟨?_, ?_, ?_⟩
  · simp [close_browser_session, hmem, hok]
  · simp [close_browser_session, Finset.not_mem_erase]
  · intro j hj
    simp [close_browser_session, hj]

/-- C7 witness: the theorem instantiated at a one-session registry whose
underlying close succeeds. -/
theorem c7_close_session_twice_witness :
    close_browser_session (fun _ => false) {"a"} "a"
        = (.closed, ({"a"} : Finset String).erase "a", ["a"]) ∧
    close_browser_session (fun _ => false) (({"a"} : Finset String).erase "a")
        "a" = (.notFound, ({"a"} : Finset String).erase "a", []) ∧
    ∀ j, j ∉ ({"a"} : Finset String) →
        close_browser_session (fun _ => false) {"a"} j
          = (.notFound, {"a"}, []) :=
  c7_close_session_twice (fun _ => false) {"a"} "a"
    (Finset.mem_singleton_self "a") rfl

/-- C8: a card whose processing raises yields `None` from the per-card
routine, and the accumulation loop over `pre ++ card :: post` produces
exactly the records of `pre` followed by the records of `post`: the
failure aborts nothing, the failed card is simply absent, and the
surviving records keep their card order. -/
theorem c8_card_failure_isolated (pre : List CardEnv) (c : CardEnv)
    (post : List CardEnv) (hfail : c.raises = true) :
    process_result_card c = none ∧
    processCards (pre ++ c :: post) = processCards pre ++ processCards post := by
  have hnone : process_result_card c = none := by
    simp [process_result_card, hfail]
  refine ⟨hnone, ?_⟩
  simp [processCards, List.filterMap_append, List.filterMap_cons, hnone]

/-- C8 witness: the theorem instantiated with a failing card between two
successful cards. -/
theorem c8_card_failure_isolated_witness :
    process_result_card sampleFailCard = none ∧
    processCards ([sampleGoodCard] ++ sampleFailCard :: [sampleGoodCard])
        = processCards [sampleGoodCard] ++ processCards [sampleGoodCard] :=
  c8_card_failure_isolated [sampleGoodCard] sampleFailCard [sampleGoodCard] rfl

/-- C9: when the underlying `close()` raises for a registered id, the route
answers with the 500, the registry still contains the id (the `del` is
never reached), and a subsequent close of the same id still finds the
session instead of answering 404. -/
theorem c9_close_failure_keeps_entry (closeRaises : String → Bool)
    (registry : Finset String) (id : String)
    (hmem : id ∈ registry) (hraise : closeRaises id = true) :
    close_browser_session closeRaises registry id
        = (.serverError, registry, [id]) ∧
    id ∈ (close_browser_session closeRaises registry id).2.1 ∧
    (close_browser_session closeRaises
        (close_browser_session closeRaises registry id).2.1 id).1
      ≠ .notFound := by
  have h1 : close_browser_session closeRaises registry id
      = (.serverError, registry, [id]) := by
    simp [close_browser_session, hmem, hraise]
  refine ⟨h1, ?_, ?_⟩
  · rw [h1]; exact hmem
  · rw [h1]
    simp [close_browser_session, hmem, hraise]

/-- C9 witness: the theorem instantiated at a one-session registry whose
underlying close raises. -/
theorem c9_close_failure_keeps_entry_witness :
    close_browser_session (fun _ => true) {"a"} "a"
        = (.serverError, {"a"}, ["a"]) ∧
    "a" ∈ (close_browser_session (fun _ => true) {"a"} "a").2.1 ∧
    (close_browser_session (fun _ => true)
        (close_browser_session (fun _ => true) {"a"} "a").2.1 "a").1
      ≠ .notFound :=
  c9_close_failure_keeps_entry (fun _ => true) {"a"} "a"
    (Finset.mem_singleton_self "a") rfl

/-- C3: when no exception interrupts the extraction, the truncation of
line 289 selects exactly `min max_urls available` cards and keeps them as
an initial segment of the available cards (input order); the extracted URL
list is at most that long, and the returned count equals its length. -/
theorem c3_truncation_and_count (env : ExtractEnv) (ru : String) (n : Nat)
    (hnav : env.navRaises = false) :
    (cardsToProcess (get_result_cards env) n).length
        = min n (get_result_cards env).length ∧
    cardsToProcess (get_result_cards env) n <+: get_result_cards env ∧
    (extract_urls_from_results_page env ru n).urls.length
        ≤ min n (get_result_cards env).length ∧
    (extract_urls_from_results_page env ru n).count
        = (extract_urls_from_results_page env ru n).urls.length := by
  have hlen : (cardsToProcess (get_result_cards env) n).length
      = min n (get_result_cards env).length := by
    simp only [cardsToProcess, List.length_take]
    omega
  refine ⟨hlen, ⟨_, List.take_append_drop _ _⟩, ?_, ?_⟩
  · by_cases hc : (get_result_cards env).isEmpty
    · simp [extract_urls_from_results_page, hnav, hc]
    · have hred : extract_urls_from_results_page env ru n
          = { urls := processCards (cardsToProcess (get_result_cards env) n)
              count :=
                (processCards (cardsToProcess (get_result_cards env) n)).length
              results_url := some ru } := by
        simp [extract_urls_from_results_page, hnav, hc]
      rw [hred]
      calc (processCards (cardsToProcess (get_result_cards env) n)).length
          ≤ (cardsToProcess (get_result_cards env) n).length :=
            List.length_filterMap_le _ _
        _ = min n (get_result_cards env).length := hlen
  · by_cases hc : (get_result_cards env).isEmpty <;>
      simp [extract_urls_from_results_page, hnav, hc]

/-- C3 witness: the theorem instantiated at the two-column sample page with
`max_urls = 1`. -/
theorem c3_truncation_and_count_witness :
    (cardsToProcess (get_result_cards sampleExtractEnv) 1).length
        = min 1 (get_result_cards sampleExtractEnv).length ∧
    cardsToProcess (get_result_cards sampleExtractEnv) 1
        <+: get_result_cards sampleExtractEnv ∧
    (extract_urls_from_results_page sampleExtractEnv
        "https://lenso.ai/en/results/abc" 1).urls.length
      ≤ min 1 (get_result_cards sampleExtractEnv).length ∧
    (extract_urls_from_results_page sampleExtractEnv
        "https://lenso.ai/en/results/abc" 1).count
      = (extract_urls_from_results_page sampleExtractEnv
          "https://lenso.ai/en/results/abc" 1).urls.length :=
  c3_truncation_and_count sampleExtractEnv "https://lenso.ai/en/results/abc" 1
    rfl

/-- C4: a record leaves `_extract_url_from_modal` only when the globe-button
click produced a new tab whose URL is truthy, and that URL is the record's
`url` field; when the first result entry's click opens no new tab within the
wait window, the whole per-card result is `None` — a record is never
emitted with a missing or empty `url`. -/
theorem c4_record_requires_new_tab (m : ModalEnv) :
    (∀ it, m.resultItem = some it → it.newTabUrl = none →
        extract_url_from_modal m = none) ∧
    (∀ rec, extract_url_from_modal m = some rec →
        rec.url ≠ "" ∧
        ∃ it, m.resultItem = some it ∧ it.newTabUrl = some rec.url) := by
  constructor
  · intro it hit hnone
    have hclick : click_globe_button it = none := by
      simp [click_globe_button, hnone]
    unfold extract_url_from_modal
    split_ifs with h1 h2
    · rfl
    · cases hinfo : extract_result_info it <;> simp [hit, hinfo, hclick]
    · rfl
  · intro rec hrec
    unfold extract_url_from_modal at hrec
    split_ifs at hrec with h1 h2
    cases hitem : m.resultItem with
      | none =>
        simp only [hitem] at hrec
        exact Option.noConfusion hrec
      | some it =>
        simp only [hitem] at hrec
        cases hinfo : extract_result_info it with
        | none =>
          simp only [hinfo] at hrec
          exact Option.noConfusion hrec
        | some info =>
          simp only [hinfo] at hrec
          cases hclick : click_globe_button it with
          | none =>
            simp only [hclick] at hrec
            exact Option.noConfusion hrec
          | some u =>
            simp only [hclick] at hrec
            by_cases hu : u = ""
            · rw [if_pos hu] at hrec
              exact Option.noConfusion hrec
            · rw [if_neg hu] at hrec
              have heq := Option.some.inj hrec
              have hnt : it.newTabUrl = some u := by
                unfold click_globe_button at hclick
                split_ifs at hclick with ha hb
                exact hclick
              refine ⟨?_, it, rfl, ?_⟩
              · rw [← heq]
                exact hu
              · rw [← heq]
                exact hnt

/-- C4 witness: the theorem's first part instantiated at the sample modal
whose only entry opens no new tab. -/
theorem c4_record_requires_new_tab_witness :
    extract_url_from_modal sampleModalNoTab = none :=
  (c4_record_requires_new_tab sampleModalNoTab).1 sampleItemNoTab rfl rfl

/-- C5 counterexample to the claim that the thumbnail src falls back to the
literal `"Unknown"`: with the thumbnail element absent but domain and title
present, `_extract_result_info` returns `None` — the record is discarded —
while the identical entry with a thumbnail yields a full record. -/
theorem c5_thumbnail_discard_cex :
    extract_result_info
        { thumbSrc := none
          domainText := some "example.com"
          titleText := some "A title"
          globeButtonPresent := true
          newTabUrl := some "https://example.com/page"
          infoRaises := false
          clickRaises := false } = none ∧
    extract_result_info sampleGoodItem
      = some
          { domain := "example.com"
            title := "A title"
            image_url := "https://api.lenso.ai/thumb.jpg" } := by
  exact ⟨rfl, rfl⟩

/-- C5 amended: only the domain and title fields fall back to the literal
`"Unknown"` when their element is missing (so those two are never null on
an emitted record); a missing thumbnail element, or a missing or empty src
attribute, causes the whole record to be discarded rather than emitted
with a placeholder. -/
theorem c5_unknown_fallbacks (it : ResultItemEnv) :
    (it.thumbSrc = none → extract_result_info it = none) ∧
    (∀ src, it.thumbSrc = some src → src.getD "" = "" →
        extract_result_info it = none) ∧
    (∀ info, extract_result_info it = some info →
        (it.domainText = none → info.domain = "Unknown") ∧
        (it.titleText = none → info.title = "Unknown") ∧
        (∀ d, it.domainText = some d → info.domain = d) ∧
        (∀ t, it.titleText = some t → info.title = t)) := by
  refine ⟨?_, ?_, ?_⟩
  · intro hthumb
    unfold extract_result_info
    split_ifs with h1
    · rfl
    · simp [hthumb]
  · intro src hsrc hempty
    unfold extract_result_info
    split_ifs with h1
    · rfl
    · cases src with
      | none => simp [hsrc]
      | some s =>
        have hs : s = "" := by simpa using hempty
        simp [hsrc, hs]
  · intro info hinfo
    unfold extract_result_info at hinfo
    split_ifs at hinfo with h1
    cases hthumb : it.thumbSrc with
      | none =>
        simp only [hthumb] at hinfo
        exact Option.noConfusion hinfo
      | some src =>
        cases src with
        | none =>
          simp only [hthumb] at hinfo
          exact Option.noConfusion hinfo
        | some s =>
          simp only [hthumb] at hinfo
          by_cases hs : s = ""
          · rw [if_pos hs] at hinfo
            exact Option.noConfusion hinfo
          · rw [if_neg hs] at hinfo
            have heq := Option.some.inj hinfo
            refine ⟨?_, ?_, ?_, ?_⟩
            · intro hd; rw [← heq]; simp [hd]
            · intro ht; rw [← heq]; simp [ht]
            · intro d hd; rw [← heq]; simp [hd]
            · intro t ht; rw [← heq]; simp [ht]

/-- C5 witness for the amended claim: a thumbnail element without a src
attribute makes the routine discard the record. -/
theorem c5_unknown_fallbacks_witness :
    extract_result_info sampleItemNoSrc = none :=
  (c5_unknown_fallbacks sampleItemNoSrc).2.1 none rfl rfl

/-- C10: the returned mapping omits `results_url` exactly on the degraded
paths (an exception, or no result cards found), and then it is exactly the
empty mapping with `urls = []` and `count = 0`; every completed extraction
carries `results_url` equal to the input URL together with the count
invariant — so the presence of `results_url` distinguishes completed from
degraded extractions. -/
theorem c10_results_url_distinguishes (env : ExtractEnv) (ru : String)
    (n : Nat) :
    ((extract_urls_from_results_page env ru n).results_url = none →
        extract_urls_from_results_page env ru n
          = { urls := [], count := 0, results_url := none }) ∧
    ((extract_urls_from_results_page env ru n).results_url = none ↔
        env.navRaises = true ∨ get_result_cards env = []) ∧
    (∀ r, (extract_urls_from_results_page env ru n).results_url = some r →
        r = ru ∧
        (extract_urls_from_results_page env ru n).count
          = (extract_urls_from_results_page env ru n).urls.length) := by
  by_cases h1 : env.navRaises
  · refine ⟨fun _ => by simp [extract_urls_from_results_page, h1], ?_, ?_⟩
    · simp [extract_urls_from_results_page, h1]
    · intro r hr
      simp [extract_urls_from_results_page, h1] at hr
  · by_cases h2 : (get_result_cards env).isEmpty
    · refine ⟨fun _ => by simp [extract_urls_from_results_page, h1, h2], ?_, ?_⟩
      · simp [extract_urls_from_results_page, h1, h2]
        exact List.isEmpty_iff.mp h2
      · intro r hr
        simp [extract_urls_from_results_page, h1, h2] at hr
    · have hne : ¬ get_result_cards env = [] := by
        intro hcontra
        rw [hcontra] at h2
        exact h2 rfl
      refine ⟨?_, ?_, ?_⟩
      · intro hr
        simp [extract_urls_from_results_page, h1, h2] at hr
      · simp [extract_urls_from_results_page, h1, h2, hne]
      · intro r hr
        have hru : r = ru := by
          simp [extract_urls_from_results_page, h1, h2] at hr
          exact hr.symm
        refine ⟨hru, ?_⟩
        simp [extract_urls_from_results_page, h1, h2]

/-- C10 witness: on the sample page whose navigation raises, the returned
mapping is exactly the empty one without `results_url`. -/
theorem c10_results_url_distinguishes_witness :
    extract_urls_from_results_page sampleDegradedEnv
        "https://lenso.ai/en/results/abc" 3
      = { urls := [], count := 0, results_url := none } :=
  (c10_results_url_distinguishes sampleDegradedEnv
      "https://lenso.ai/en/results/abc" 3).1 rfl

end Jarvis
